import Mathlib

/-!
Verification of the SQP query responder (lib/svrsample/protocol/sqp/sqp.go).

The Go code is shallowly embedded: byte buffers are lists of naturals
(each < 256 on the wire), the `sync.Map` of challenges is a function
`String → Option Nat`, and the pseudo-random token from `rand.Uint32`
is passed in as an explicit parameter.  Go's multi-value return
`([]byte, error)` is mirrored by `GoResult.ret (resp : Option bytes)
(err : Option SQPError)`; an out-of-range slice or index is the
distinguished outcome `GoResult.panic`.
-/

namespace SQP

/-- Big-endian 32-bit read: `binary.BigEndian.Uint32` on four bytes. -/
def beUint32 (b0 b1 b2 b3 : Nat) : Nat :=
  ((b0 * 256 + b1) * 256 + b2) * 256 + b3

/-- Big-endian 16-bit read: `binary.BigEndian.Uint16` on two bytes. -/
def beUint16 (b0 b1 : Nat) : Nat :=
  b0 * 256 + b1

/-- Big-endian byte decomposition of a 32-bit value, most significant first. -/
def u32Bytes (v : Nat) : List Nat :=
  [v / 16777216 % 256, v / 65536 % 256, v / 256 % 256, v % 256]

/-- Big-endian byte decomposition of a 16-bit value, most significant first. -/
def u16Bytes (v : Nat) : List Nat :=
  [v / 256 % 256, v % 256]

/-- The challenge store: the `challenges sync.Map` of `QueryResponder`,
keyed by client address, holding at most one `uint32` token per key. -/
abbrev Challenges := String → Option Nat

/-- The error taxonomy of the responder, one constructor per
`errors.New` / `fmt.Errorf` site in sqp.go. -/
inductive SQPError where
  | unsupportedQuery
  | noChallenge
  | malformedPacket
  | challengeMismatch
  | unsupportedVersion (got : Nat)
deriving DecidableEq

/-- Outcome of a call: Go's `([]byte, error)` pair, or a runtime panic
from an out-of-range slice or index. -/
inductive GoResult where
  | ret (resp : Option (List Nat)) (err : Option SQPError)
  | panic
deriving DecidableEq

/-- isChallenge: `bytes.Equal(buf[0:5], []byte{0,0,0,0,0})`.  The slice
`buf[0:5]` is out of range when the buffer is shorter than 5 bytes,
which is Go's runtime panic, modelled as `none`. -/
def isChallenge (buf : List Nat) : Option Bool :=
  if 5 ≤ buf.length then some (decide (buf.take 5 = [0, 0, 0, 0, 0])) else none

/-- isQuery: `buf[0] == 1`.  Indexing an empty buffer panics (`none`). -/
def isQuery (buf : List Nat) : Option Bool :=
  if 1 ≤ buf.length then some (decide (buf.headD 0 = 1)) else none

/-- Modelled from the spec: `ServerInfo.Size()` is not under src (only
sqp.go is); §3 says the encoded byte length of the server-info block is
computable before serialization, so a ServerInfo value is modelled as
its encoded bytes and `Size` as their count, truncated to uint32. -/
def Size (si : List Nat) : Nat :=
  si.length % 4294967296

/-- The queryWireFormat struct of sqp.go (field for field).  `challenge`
and `serverInfoLength` are uint32, `sqpVersion` and `payloadLength`
uint16, the packet numbers and header single bytes. -/
structure QueryWireFormat where
  header : Nat
  challenge : Nat
  sqpVersion : Nat
  currentPacketNum : Nat
  lastPacketNum : Nat
  payloadLength : Nat
  serverInfoLength : Nat
  serverInfo : List Nat
deriving DecidableEq

/-- The record built by handleQuery (sqp.go lines 113-127): header 1,
echoed challenge, version 1, packet numbers at their zero default; when
bit 0 of the requested-chunks byte is set, the server info is attached,
`ServerInfoLength = Size(info)` and `PayloadLength += uint16(ServerInfoLength) + 4`
in wrapping uint16 arithmetic. -/
def buildQueryFormat (token : Nat) (info : List Nat) (requestedChunks : Nat) :
    QueryWireFormat :=
  if requestedChunks % 2 = 1 then
    { header := 1, challenge := token, sqpVersion := 1,
      currentPacketNum := 0, lastPacketNum := 0,
      payloadLength := (Size info % 65536 + 4) % 65536,
      serverInfoLength := Size info, serverInfo := info }
  else
    { header := 1, challenge := token, sqpVersion := 1,
      currentPacketNum := 0, lastPacketNum := 0,
      payloadLength := 0, serverInfoLength := 0, serverInfo := [] }

/-- Modelled from the spec: `common.WireWrite` / `common.Encoder` are
not under src; §4.3 says each field is written in declaration order in
network byte order (big-endian), with the variable server-info block
last.  Encoding a challengeWireFormat record: header byte then the
4-byte big-endian challenge. -/
def encodeChallenge (v : Nat) : List Nat :=
  0 :: u32Bytes v

/-- Modelled from the spec: encoding a queryWireFormat record, each
field in declaration order, multi-byte integers big-endian, the
server-info block last. -/
def encodeQuery (f : QueryWireFormat) : List Nat :=
  f.header % 256 :: u32Bytes f.challenge ++ u16Bytes f.sqpVersion ++
    [f.currentPacketNum % 256, f.lastPacketNum % 256] ++
    u16Bytes f.payloadLength ++ u32Bytes f.serverInfoLength ++ f.serverInfo

/-- handleChallenge: store the fresh random token `v` for the client
address (overwriting any prior entry) and return the encoded
challengeWireFormat bytes with a nil error. -/
def handleChallenge (challenges : Challenges) (v : Nat) (addr : String) :
    Challenges × GoResult :=
  (fun a => if a = addr then some v else challenges a,
   .ret (some (encodeChallenge v)) none)

/-- handleQuery: `LoadAndDelete` the token for the address (delete
happens whether or not the rest succeeds), then length, challenge and
version checks in the order of sqp.go lines 94-133, finally the encoded
queryWireFormat record. -/
def handleQuery (challenges : Challenges) (info : List Nat) (addr : String)
    (buf : List Nat) : Challenges × GoResult :=
  match challenges addr with
  | none => (challenges, .ret none (some .noChallenge))
  | some expectedChallenge =>
    let challenges' : Challenges := fun a => if a = addr then none else challenges a
    if buf.length < 8 then
      (challenges', .ret none (some .malformedPacket))
    else if beUint32 (buf.getD 1 0) (buf.getD 2 0) (buf.getD 3 0) (buf.getD 4 0)
        ≠ expectedChallenge then
      (challenges', .ret none (some .challengeMismatch))
    else if beUint16 (buf.getD 5 0) (buf.getD 6 0) ≠ 1 then
      (challenges', .ret none (some (.unsupportedVersion (buf.getD 6 0))))
    else
      (challenges',
       .ret (some (encodeQuery (buildQueryFormat expectedChallenge info (buf.getD 7 0)))) none)

/-- Respond: classify the buffer and dispatch (sqp.go lines 50-60).
`v` is the value `rand.Uint32` would produce for a challenge request;
`info` the encoded server info for the current query state. -/
def Respond (challenges : Challenges) (v : Nat) (info : List Nat) (addr : String)
    (buf : List Nat) : Challenges × GoResult :=
  match isChallenge buf with
  | none => (challenges, .panic)
  | some true => handleChallenge challenges v addr
  | some false =>
    match isQuery buf with
    | none => (challenges, .panic)
    | some true => handleQuery challenges info addr buf
    | some false => (challenges, .ret none (some .unsupportedQuery))

/-- The test helper of spec §8: a query packet with the given challenge
value, version and chunk bitmask, 8 bytes long. -/
def queryPacket (T ver chunks : Nat) : List Nat :=
  1 :: u32Bytes T ++ u16Bytes ver ++ [chunks]

/-! ## Helper lemmas -/

/-- Reading back the big-endian byte decomposition of a 32-bit value
recovers the value. -/
theorem beUint32_decomp (T : Nat) (h : T < 4294967296) :
    beUint32 (T / 16777216 % 256) (T / 65536 % 256) (T / 256 % 256) (T % 256) = T := by
  unfold beUint32
  omega

/-- handleQuery returns through one of its five `return` statements and
never panics. -/
theorem handleQuery_ne_panic (m : Challenges) (info : List Nat) (addr : String)
    (buf : List Nat) : (handleQuery m info addr buf).2 ≠ GoResult.panic := by
  unfold handleQuery
  cases hm : m addr
  · simp
  · simp only []
    split
    · simp
    · split
      · simp
      · split <;> simp

/-- Every branch of handleQuery removes (or finds absent) the entry for
the calling address: afterwards the store holds nothing for it. -/
theorem handleQuery_store_self (m : Challenges) (info : List Nat) (addr : String)
    (buf : List Nat) : (handleQuery m info addr buf).1 addr = none := by
  unfold handleQuery
  cases hm : m addr
  · simpa using hm
  · simp only []
    split
    · simp
    · split
      · simp
      · split <;> simp

/-- A buffer of at least 5 bytes whose first byte is 1 is classified as
a query: Respond dispatches it to handleQuery. -/
theorem respond_query_dispatch (m : Challenges) (v : Nat) (info : List Nat)
    (addr : String) (buf : List Nat) (h5 : 5 ≤ buf.length) (hq : buf.headD 0 = 1) :
    Respond m v info addr buf = handleQuery m info addr buf := by
  cases buf with
  | nil => simp at h5
  | cons b t =>
    simp only [List.headD_cons] at hq
    subst hq
    have h4 : 4 ≤ t.length := by simp at h5; omega
    unfold Respond isChallenge isQuery
    simp [h5, h4, List.take_succ_cons]

/-- A query from an address with no stored token fails with NoChallenge. -/
theorem handleQuery_noChallenge (m : Challenges) (info : List Nat) (addr : String)
    (buf : List Nat) (h : m addr = none) :
    (handleQuery m info addr buf).2 = .ret none (some .noChallenge) := by
  unfold handleQuery
  rw [h]

/-! ## Claims -/

/-- C7: the classifier predicates are pure functions and decide packet
kind exactly: for every buffer of at least 5 bytes, isChallenge is true
iff the first 5 bytes are all zero (trailing bytes ignored), and for
every non-empty buffer isQuery is true iff byte 0 equals 1. -/
theorem C7_classifier_spec (buf : List Nat) :
    (5 ≤ buf.length → (isChallenge buf = some true ↔ buf.take 5 = [0, 0, 0, 0, 0])) ∧
    (1 ≤ buf.length → (isQuery buf = some true ↔ buf.headD 0 = 1)) := by
  constructor
  · intro h5
    simp [isChallenge, h5]
  · intro h1
    simp [isQuery, h1]

/-- C7 witness: the classifier equivalences at concrete buffers. -/
theorem C7_classifier_spec_witness :
    isChallenge [0, 0, 0, 0, 0, 7] = some true ∧ isQuery [1, 2, 3] = some true :=
  ⟨((C7_classifier_spec [0, 0, 0, 0, 0, 7]).1 (by decide)).mpr (by decide),
   ((C7_classifier_spec [1, 2, 3]).2 (by decide)).mpr (by decide)⟩

/-- C1 counterexample: on a 3-byte buffer, `buf[0:5]` inside isChallenge
is an out-of-range slice, so Respond panics rather than treating the
short buffer as a non-match; and a 5-byte query packet from an address
with no stored token fails with NoChallenge, not MalformedPacket. -/
theorem C1_short_buffer_panics :
    (Respond (fun _ => none) 0 [] "A" [0, 0, 0]).2 = GoResult.panic ∧
    (Respond (fun _ => none) 0 [] "A" [1, 0, 0, 0, 0]).2
      = .ret none (some .noChallenge) :=
  ⟨rfl, rfl⟩

/-- C1 amended: for every buffer of at least 5 bytes Respond never
panics (buffers shorter than 5 bytes do panic in the classifier), and a
query-classified packet shorter than 8 bytes from an address holding a
token fails with MalformedPacket. -/
theorem C1_no_panic_and_length_guard (m : Challenges) (v : Nat) (info : List Nat)
    (addr : String) (buf : List Nat) (h5 : 5 ≤ buf.length) :
    (Respond m v info addr buf).2 ≠ GoResult.panic ∧
    (buf.headD 0 = 1 → buf.length < 8 → (∃ T, m addr = some T) →
      (Respond m v info addr buf).2 = .ret none (some .malformedPacket)) := by
  have hchal : isChallenge buf = some (decide (buf.take 5 = [0, 0, 0, 0, 0])) := by
    simp [isChallenge, h5]
  have h1 : 1 ≤ buf.length := by omega
  have hquer : isQuery buf = some (decide (buf.headD 0 = 1)) := by
    simp [isQuery, h1]
  constructor
  · unfold Respond
    rw [hchal]
    cases hd : decide (buf.take 5 = [0, 0, 0, 0, 0])
    · simp only []
      rw [hquer]
      cases hq : decide (buf.headD 0 = 1)
      · simp
      · simpa using handleQuery_ne_panic m info addr buf
    · simp [handleChallenge]
  · rintro hq hlen ⟨T, hT⟩
    rw [respond_query_dispatch m v info addr buf h5 hq]
    unfold handleQuery
    rw [hT]
    simp [hlen]

/-- C1 witness: a 5-byte query packet from an address with a stored
token does not panic and fails with MalformedPacket. -/
theorem C1_no_panic_and_length_guard_witness :
    (Respond (fun a => if a = "A" then some 3 else none) 0 [] "A" [1, 0, 0, 0, 3]).2
      ≠ GoResult.panic ∧
    (Respond (fun a => if a = "A" then some 3 else none) 0 [] "A" [1, 0, 0, 0, 3]).2
      = .ret none (some .malformedPacket) := by
  have h := C1_no_panic_and_length_guard (fun a => if a = "A" then some 3 else none)
    0 [] "A" [1, 0, 0, 0, 3] (by decide)
  exact ⟨h.1, h.2 (by decide) (by decide) ⟨3, by decide⟩⟩

/-- C8: at most one token per address: a challenge request stores the
fresh token for the calling address, silently replacing whatever was
there, and a query-classified packet always leaves the calling address
with no stored token (lookup-and-delete on every attempt). -/
theorem C8_one_token (m : Challenges) (v : Nat) (info : List Nat)
    (addr : String) (buf : List Nat) (h5 : 5 ≤ buf.length) :
    (buf.take 5 = [0, 0, 0, 0, 0] → (Respond m v info addr buf).1 addr = some v) ∧
    (buf.headD 0 = 1 → (Respond m v info addr buf).1 addr = none) := by
  constructor
  · intro hz
    unfold Respond
    rw [show isChallenge buf = some true by simp [isChallenge, h5, hz]]
    simp [handleChallenge]
  · intro hq
    rw [respond_query_dispatch m v info addr buf h5 hq]
    exact handleQuery_store_self m info addr buf

/-- C8 witness: a challenge replaces a previously stored token, and a
query attempt deletes the stored token. -/
theorem C8_one_token_witness :
    (Respond (fun a => if a = "A" then some 3 else none) 7 [] "A" [0, 0, 0, 0, 0]).1 "A"
      = some 7 ∧
    (Respond (fun a => if a = "A" then some 3 else none) 7 [] "A" [1, 0, 0, 0, 0]).1 "A"
      = none :=
  ⟨(C8_one_token (fun a => if a = "A" then some 3 else none) 7 [] "A" [0, 0, 0, 0, 0]
      (by decide)).1 (by decide),
   (C8_one_token (fun a => if a = "A" then some 3 else none) 7 [] "A" [1, 0, 0, 0, 0]
      (by decide)).2 (by decide)⟩

/-- C9: frame property: Respond for address A never touches the stored
challenge of any other address B. -/
theorem C9_frame (m : Challenges) (v : Nat) (info : List Nat)
    (A B : String) (buf : List Nat) (hne : B ≠ A) :
    (Respond m v info A buf).1 B = m B := by
  unfold Respond
  cases hc : isChallenge buf with
  | none => rfl
  | some b =>
    cases b
    · cases hq : isQuery buf with
      | none => rfl
      | some b2 =>
        cases b2
        · rfl
        · unfold handleQuery
          cases hm : m A
          · rfl
          · simp only []
            repeat' split
            all_goals simp [hne]
    · simp [handleChallenge, hne]

/-- C9 witness: a challenge request from A leaves the entry of B intact. -/
theorem C9_frame_witness :
    (Respond (fun a => if a = "B" then some 9 else none) 7 [] "A" [0, 0, 0, 0, 0]).1 "B"
      = some 9 :=
  (C9_frame (fun a => if a = "B" then some 9 else none) 7 [] "A" "B" [0, 0, 0, 0, 0]
    (by decide)).trans (by decide)

/-- C2: single-use token: with token T stored for A, a well-formed query
packet carrying T, version 1 and no chunks succeeds; and after any
query-classified packet from A has been processed, successfully or not,
a subsequent query-classified packet from A fails with NoChallenge. -/
theorem C2_single_use (m : Challenges) (A : String) (T v₁ v₂ : Nat) (info : List Nat)
    (hT : m A = some T) (hT32 : T < 4294967296) :
    (∃ resp, (Respond m v₁ info A (queryPacket T 1 0)).2 = .ret (some resp) none) ∧
    (∀ buf bufB : List Nat, 5 ≤ buf.length → buf.headD 0 = 1 →
      5 ≤ bufB.length → bufB.headD 0 = 1 →
      (Respond (Respond m v₁ info A buf).1 v₂ info A bufB).2
        = .ret none (some SQPError.noChallenge)) := by
  constructor
  · have hq : (queryPacket T 1 0).headD 0 = 1 := by simp [queryPacket]
    have h5 : 5 ≤ (queryPacket T 1 0).length := by
      simp [queryPacket, u32Bytes, u16Bytes]
    rw [respond_query_dispatch m v₁ info A _ h5 hq]
    refine ⟨encodeQuery (buildQueryFormat T info 0), ?_⟩
    unfold handleQuery
    rw [hT]
    simp [queryPacket, u32Bytes, u16Bytes, beUint16, beUint32_decomp T hT32]
  · intro buf bufB h5 hq h5B hqB
    rw [respond_query_dispatch m v₁ info A buf h5 hq,
        respond_query_dispatch _ v₂ info A bufB h5B hqB]
    exact handleQuery_noChallenge _ info A bufB (handleQuery_store_self m info A buf)

/-- C2 witness: token 3 stored for A succeeds once and the identical
second packet fails with NoChallenge. -/
theorem C2_single_use_witness :
    (∃ resp, (Respond (fun a => if a = "A" then some 3 else none) 0 [] "A"
        (queryPacket 3 1 0)).2 = .ret (some resp) none) ∧
    (Respond ((Respond (fun a => if a = "A" then some 3 else none) 0 [] "A"
        (queryPacket 3 1 0)).1) 0 [] "A" (queryPacket 3 1 0)).2
      = .ret none (some SQPError.noChallenge) := by
  have h := C2_single_use (fun a => if a = "A" then some 3 else none) "A" 3 0 0 []
    (by decide) (by decide)
  exact ⟨h.1, h.2 (queryPacket 3 1 0) (queryPacket 3 1 0)
    (by decide) (by decide) (by decide) (by decide)⟩

/-- C3: whenever Respond returns an error it returns no response bytes,
and in particular a query whose challenge field does not match the
stored token fails with ChallengeMismatch and no bytes. -/
theorem C3_error_silence (m : Challenges) (v : Nat) (info : List Nat)
    (addr : String) (buf : List Nat) :
    (∀ resp e, (Respond m v info addr buf).2 = .ret resp (some e) → resp = none) ∧
    (∀ T b1 b2 b3 b4 b5 b6 b7 rest,
      buf = 1 :: b1 :: b2 :: b3 :: b4 :: b5 :: b6 :: b7 :: rest →
      m addr = some T → beUint32 b1 b2 b3 b4 ≠ T →
      (Respond m v info addr buf).2 = .ret none (some .challengeMismatch)) := by
  constructor
  · intro resp e h
    unfold Respond handleChallenge handleQuery at h
    repeat' split at h
    all_goals simp_all
  · rintro T b1 b2 b3 b4 b5 b6 b7 rest rfl hT hne
    rw [respond_query_dispatch m v info addr _ (by simp) (by simp)]
    unfold handleQuery
    rw [hT]
    simp only [List.length_cons, List.getD_cons_succ, List.getD_cons_zero]
    rw [if_neg (by omega), if_pos hne]

/-- C3 witness: a mismatched challenge value yields ChallengeMismatch
with no response bytes. -/
theorem C3_error_silence_witness :
    (Respond (fun a => if a = "A" then some 3 else none) 0 [] "A"
        [1, 0, 0, 0, 9, 0, 1, 0]).2 = .ret none (some .challengeMismatch) :=
  (C3_error_silence (fun a => if a = "A" then some 3 else none) 0 [] "A"
      [1, 0, 0, 0, 9, 0, 1, 0]).2
    3 0 0 0 9 0 1 0 [] rfl (by decide) (by decide)

/-- C4 counterexample: with stored token 5 and a query whose version
field is [1, 0] (big-endian 256), the error carries byte 6 of the
packet, namely 0, not the received version 256 the claim requires. -/
theorem C4_version_error_cx :
    (Respond (fun a => if a = "A" then some 5 else none) 0 [] "A"
        [1, 0, 0, 0, 5, 1, 0, 0]).2 = .ret none (some (.unsupportedVersion 0)) ∧
    beUint16 1 0 = 256 ∧
    SQPError.unsupportedVersion 0 ≠ SQPError.unsupportedVersion 256 :=
  ⟨by decide, by decide, by decide⟩

/-- C4 amended: a matching query with version field not equal to 1 fails
with UnsupportedVersion carrying byte 6 of the packet (the low byte of
the version field) and no response bytes; for versions below 256, in
particular 2, that byte equals the received version. -/
theorem C4_version_gate (m : Challenges) (v : Nat) (info : List Nat) (addr : String)
    (T b1 b2 b3 b4 b5 b6 b7 : Nat) (rest : List Nat)
    (hT : m addr = some T) (hc : beUint32 b1 b2 b3 b4 = T)
    (hv : beUint16 b5 b6 ≠ 1) :
    (Respond m v info addr (1 :: b1 :: b2 :: b3 :: b4 :: b5 :: b6 :: b7 :: rest)).2
      = .ret none (some (.unsupportedVersion b6)) ∧
    (∀ ver, ver < 256 → beUint16 b5 b6 = ver → b6 = ver) := by
  constructor
  · rw [respond_query_dispatch m v info addr _ (by simp) (by simp)]
    unfold handleQuery
    rw [hT]
    simp only [List.length_cons, List.getD_cons_succ, List.getD_cons_zero]
    rw [if_neg (by omega), if_neg (by simp [hc]), if_pos hv]
  · intro ver hlt hbe
    unfold beUint16 at hbe
    omega

/-- C4 witness: version 2 is reported as 2. -/
theorem C4_version_gate_witness :
    (Respond (fun a => if a = "A" then some 5 else none) 0 [] "A"
        [1, 0, 0, 0, 5, 0, 2, 0]).2 = .ret none (some (.unsupportedVersion 2)) ∧
    (2 : Nat) = 2 := by
  have h := C4_version_gate (fun a => if a = "A" then some 5 else none) 0 [] "A"
    5 0 0 0 5 0 2 0 [] (by decide) (by decide) (by decide)
  exact ⟨h.1, h.2 2 (by decide) (by decide)⟩

/-- C5 counterexample: with a 65532-byte server info block requested
via chunk bit 0, the response record built by a successful query has
serverInfoLength 65532 but payloadLength 0: the uint16 addition
`PayloadLength += uint16(ServerInfoLength) + 4` wraps modulo 2^16, so
payloadLength is not serverInfoLength + 4 as the claim requires. -/
theorem C5_payload_wrap_cx :
    (Respond (fun a => if a = "A" then some 3 else none) 0 (List.replicate 65532 9) "A"
        [1, 0, 0, 0, 3, 0, 1, 1]).2
      = .ret (some (encodeQuery (buildQueryFormat 3 (List.replicate 65532 9) 1))) none ∧
    (buildQueryFormat 3 (List.replicate 65532 9) 1).serverInfoLength = 65532 ∧
    (buildQueryFormat 3 (List.replicate 65532 9) 1).payloadLength = 0 ∧
    (0 : Nat) ≠ 65532 + 4 := by
  have hrep : (List.replicate 65532 (9 : Nat)).length = 65532 := by
    rw [List.length_replicate]
  have hresp : ∀ L : List Nat,
      (Respond (fun a => if a = "A" then some 3 else none) 0 L "A"
          [1, 0, 0, 0, 3, 0, 1, 1]).2
        = .ret (some (encodeQuery (buildQueryFormat 3 L 1))) none := by
    intro L
    rw [respond_query_dispatch (fun a => if a = "A" then some 3 else none) 0 L "A" _
      (by simp) (by simp)]
    unfold handleQuery
    rw [show (fun a => if a = "A" then some 3 else none) "A" = some 3 from by simp]
    simp only [List.getD_cons_succ, List.getD_cons_zero]
    rw [if_neg (by decide), if_neg (by decide), if_neg (by decide)]
  have hlen : ∀ L : List Nat, L.length = 65532 →
      (buildQueryFormat 3 L 1).serverInfoLength = 65532 ∧
      (buildQueryFormat 3 L 1).payloadLength = 0 := by
    intro L hL
    unfold buildQueryFormat
    rw [if_pos (by norm_num)]
    constructor
    · show Size L = 65532
      unfold Size
      rw [hL]
    · show (Size L % 65536 + 4) % 65536 = 0
      unfold Size
      rw [hL]
  exact ⟨hresp _, (hlen _ hrep).1, (hlen _ hrep).2, by decide⟩

/-- C5 amended: every successful query response encodes a record with
header 1, the consumed token as challenge, version 1 and zero packet
numbers; with chunk bit 0 set the server-info length is Size(info) and,
for server info small enough that the uint16 payload field does not
wrap, the payload length is Size(info) + 4; with bit 0 clear both
lengths are 0 and the block is empty. -/
theorem C5_response_record (m : Challenges) (v : Nat) (info : List Nat) (addr : String)
    (T b1 b2 b3 b4 b7 : Nat) (rest : List Nat)
    (hT : m addr = some T) (hc : beUint32 b1 b2 b3 b4 = T)
    (hsize : Size info + 4 < 65536) :
    (Respond m v info addr (1 :: b1 :: b2 :: b3 :: b4 :: 0 :: 1 :: b7 :: rest)).2
      = .ret (some (encodeQuery (buildQueryFormat T info b7))) none ∧
    (buildQueryFormat T info b7).header = 1 ∧
    (buildQueryFormat T info b7).challenge = T ∧
    (buildQueryFormat T info b7).sqpVersion = 1 ∧
    (buildQueryFormat T info b7).currentPacketNum = 0 ∧
    (buildQueryFormat T info b7).lastPacketNum = 0 ∧
    (b7 % 2 = 1 →
      (buildQueryFormat T info b7).serverInfoLength = Size info ∧
      (buildQueryFormat T info b7).payloadLength = Size info + 4 ∧
      (buildQueryFormat T info b7).serverInfo = info) ∧
    (b7 % 2 ≠ 1 →
      (buildQueryFormat T info b7).serverInfoLength = 0 ∧
      (buildQueryFormat T info b7).payloadLength = 0 ∧
      (buildQueryFormat T info b7).serverInfo = []) := by
  refine ⟨?_, ?_, ?_, ?_, ?_, ?_, ?_, ?_⟩
  · rw [respond_query_dispatch m v info addr _ (by simp) (by simp)]
    unfold handleQuery
    rw [hT]
    simp only [List.length_cons, List.getD_cons_succ, List.getD_cons_zero]
    rw [if_neg (by omega), if_neg (by simp [hc]), if_neg (by simp [beUint16])]
  · unfold buildQueryFormat; split <;> rfl
  · unfold buildQueryFormat; split <;> rfl
  · unfold buildQueryFormat; split <;> rfl
  · unfold buildQueryFormat; split <;> rfl
  · unfold buildQueryFormat; split <;> rfl
  · intro hb
    unfold buildQueryFormat
    rw [if_pos hb]
    refine ⟨rfl, ?_, rfl⟩
    show (Size info % 65536 + 4) % 65536 = Size info + 4
    omega
  · intro hb
    unfold buildQueryFormat
    rw [if_neg hb]
    exact ⟨rfl, rfl, rfl⟩

/-- C5 witness: a 2-byte server info requested via chunk bit 0 gives
payload length 6 and the full encoded record. -/
theorem C5_response_record_witness :
    (Respond (fun a => if a = "A" then some 3 else none) 0 [9, 9] "A"
        [1, 0, 0, 0, 3, 0, 1, 1]).2
      = .ret (some (encodeQuery (buildQueryFormat 3 [9, 9] 1))) none ∧
    (buildQueryFormat 3 [9, 9] 1).payloadLength = 6 := by
  have h := C5_response_record (fun a => if a = "A" then some 3 else none) 0 [9, 9] "A"
    3 0 0 0 3 1 [] (by decide) (by decide) (by decide)
  exact ⟨h.1, ((h.2.2.2.2.2.2.1 (by decide)).2.1).trans (by decide)⟩

/-- C6: a challenge request stores the fresh token for the requesting
address and returns exactly the 5 bytes: header 0 followed by the token
big-endian; reading those 4 bytes back big-endian recovers the token. -/
theorem C6_challenge_issue (m : Challenges) (v : Nat) (info : List Nat) (addr : String)
    (buf : List Nat) (h5 : 5 ≤ buf.length) (hz : buf.take 5 = [0, 0, 0, 0, 0])
    (hv : v < 4294967296) :
    (Respond m v info addr buf).2
      = .ret (some [0, v / 16777216 % 256, v / 65536 % 256, v / 256 % 256, v % 256]) none ∧
    (Respond m v info addr buf).1 addr = some v ∧
    beUint32 (v / 16777216 % 256) (v / 65536 % 256) (v / 256 % 256) (v % 256) = v := by
  have hr : Respond m v info addr buf = handleChallenge m v addr := by
    unfold Respond
    rw [show isChallenge buf = some true by simp [isChallenge, h5, hz]]
  rw [hr]
  exact ⟨rfl, by simp [handleChallenge], beUint32_decomp v hv⟩

/-- C6 witness: token 0x01020304 is stored for A and the reply is
[0, 1, 2, 3, 4]. -/
theorem C6_challenge_issue_witness :
    (Respond (fun _ => none) 16909060 [] "A" [0, 0, 0, 0, 0]).2
      = .ret (some [0, 1, 2, 3, 4]) none ∧
    (Respond (fun _ => none) 16909060 [] "A" [0, 0, 0, 0, 0]).1 "A" = some 16909060 := by
  have h := C6_challenge_issue (fun _ => none) 16909060 [] "A" [0, 0, 0, 0, 0]
    (by decide) (by decide) (by decide)
  exact ⟨h.1.trans (by decide), h.2.1⟩

/-- C10: query handling reads only the first 8 bytes: two
query-classified buffers agreeing on bytes 0 through 7, against the same
store and server info, produce the same response bytes and error. -/
theorem C10_first8_determine (m : Challenges) (v : Nat) (info : List Nat) (addr : String)
    (b1 b2 b3 b4 b5 b6 b7 : Nat) (rest rest2 : List Nat) :
    (Respond m v info addr (1 :: b1 :: b2 :: b3 :: b4 :: b5 :: b6 :: b7 :: rest)).2
      = (Respond m v info addr (1 :: b1 :: b2 :: b3 :: b4 :: b5 :: b6 :: b7 :: rest2)).2 := by
  rw [respond_query_dispatch m v info addr _ (by simp) (by simp),
      respond_query_dispatch m v info addr _ (by simp) (by simp)]
  unfold handleQuery
  cases hm : m addr
  · rfl
  · simp only [List.length_cons, List.getD_cons_succ, List.getD_cons_zero]
    have hL1 : ¬(rest.length + 1 + 1 + 1 + 1 + 1 + 1 + 1 + 1 < 8) := by omega
    have hL2 : ¬(rest2.length + 1 + 1 + 1 + 1 + 1 + 1 + 1 + 1 < 8) := by omega
    rw [if_neg hL1, if_neg hL2]

end SQP
